import Mathlib

/-!
# BIwithAI multi-tenant session propagation: shallow embedding

This file embeds, in Lean, the multi-tenant session-propagation subsystem of
the BIwithAI front-end and proves properties of it:

* the Tenant Resolver (`getCurrentSubdomain` / `resolveTenant` and
  `getBaseDomain` from `frontend/src/utils/tenant.ts`),
* the Session Store (`useAuthStore` from `frontend/src/store/authStore.ts`),
* the cross-subdomain transfer sender (`redirectToSubdomain` from
  `tenant.ts`) and receiver (`AuthTransfer` from
  `frontend/src/pages/AuthTransfer.tsx`),
* the login orchestration and logout flow (`useAuth` from
  `frontend/src/hooks/useAuth.ts`),
* the gateway client's 401 response interceptor
  (`frontend/src/api/client.ts`).

JavaScript strings-or-null values are embedded as `Option String`, with JS
truthiness (`null` and `""` are falsy) captured by `jsTruthy`.  Query strings
are embedded as association lists of key/value pairs: `URLSearchParams`
serialisation followed by parsing recovers the same pairs, so the pair level
is the faithful granularity for properties about which parameters appear.
-/

namespace BIwithAI

/-- JS truthiness for a string-or-null value: `null` and `""` are falsy. -/
def jsTruthy : Option String → Bool
  | none => false
  | some s => !(s == "")

/-- Accumulator loop behind `splitOnChar`. -/
def splitCharAux (c : Char) : List Char → List Char → List String
  | [], acc => [acc.reverse.asString]
  | x :: xs, acc =>
    if x == c then acc.reverse.asString :: splitCharAux c xs []
    else splitCharAux c xs (x :: acc)

/-- JS `String.prototype.split` with a single-character separator:
`"".split('.') = [""]`, `"a..b".split('.') = ["a", "", "b"]`. -/
def splitOnChar (c : Char) (s : String) : List String :=
  splitCharAux c s.toList []

/-- JS `Array.prototype.join('.')`. -/
def joinDot : List String → String
  | [] => ""
  | [x] => x
  | x :: xs => x ++ "." ++ joinDot xs

/-! ## Tenant Resolver (`frontend/src/utils/tenant.ts`) -/

/-- The list `const ignoredSubdomains = ['localhost', 'www', '127']` from
`getCurrentSubdomain`. -/
def ignoredSubdomains : List String := ["localhost", "www", "127"]

/-- The JS test `subdomain.match(/^\d+$/)`: the whole (non-empty) string is
decimal digits. -/
def isPureNumeric (s : String) : Bool :=
  decide (0 < s.length) && s.toList.all Char.isDigit

/-- Embeds `getCurrentSubdomain` from `tenant.ts`, as a function of the hostname
(`window.location.hostname`, which never carries a port): split on `.`,
require at least two labels, reject reserved (`localhost`, `www`, `127`) or
purely numeric first labels. -/
def getCurrentSubdomain (hostname : String) : Option String :=
  let parts := splitOnChar '.' hostname
  if 2 ≤ parts.length then
    match parts with
    | [] => none
    | sub :: _ =>
      if !(ignoredSubdomains.contains sub) && !(isPureNumeric sub) then
        some sub
      else
        none
  else
    none

/-- The browser's extraction of `window.location.hostname` from a
`host[:port]` string: everything before the first `:`. -/
def stripPort (host : String) : String :=
  match splitOnChar ':' host with
  | [] => host
  | h :: _ => h

/-- The spec's Tenant Resolver contract `resolveTenant(hostname)`: the port
suffix is stripped (as `window.location.hostname` does) and
`getCurrentSubdomain` is applied. -/
def resolveTenant (host : String) : Option String :=
  getCurrentSubdomain (stripPort host)

/-- A browser location, as read by `tenant.ts`: protocol, hostname (no
port), and port (`""` when absent, matching `window.location.port`). -/
structure Location where
  protocol : String
  hostname : String
  port : String
deriving DecidableEq, Repr

/-- Embeds `getBaseDomain` from `tenant.ts`: drop the first label when a subdomain
is (truthily) present, then re-attach the port when non-empty. -/
def getBaseDomain (loc : Location) : String :=
  let parts := splitOnChar '.' loc.hostname
  if 2 ≤ parts.length && jsTruthy (getCurrentSubdomain loc.hostname) then
    let baseDomain := joinDot parts.tail
    if loc.port == "" then baseDomain else baseDomain ++ ":" ++ loc.port
  else
    if loc.port == "" then loc.hostname else loc.hostname ++ ":" ++ loc.port

/-! ## Data model (`frontend/src/types`, `src/unnamed/part_003`) -/

/-- Embeds `OrganizationMembership` from the front-end types. -/
structure OrgMembership where
  org_id : String
  org_name : String
  subdomain : Option String
  role : String
deriving DecidableEq, Repr

/-- Embeds `User` from the front-end types (the fields the session subsystem
reads). -/
structure User where
  id : String
  email : String
  full_name : Option String
  organizations : List OrgMembership
deriving DecidableEq, Repr

/-! ## Session Store (`frontend/src/store/authStore.ts`) -/

/-- The Zustand auth store state `{user, token, refreshToken,
isAuthenticated}`. -/
structure AuthState where
  user : Option User
  token : Option String
  refreshToken : Option String
  isAuthenticated : Bool
deriving DecidableEq, Repr

/-- The initial store state: everything null, `isAuthenticated: false`. -/
def initState : AuthState :=
  { user := none, token := none, refreshToken := none, isAuthenticated := false }

/-- Embeds `setUser: (user) => set({ user, isAuthenticated: true })`. -/
def setUser (s : AuthState) (u : User) : AuthState :=
  { s with user := some u, isAuthenticated := true }

/-- Embeds `setTokens: (token, refreshToken) => set({ token, refreshToken,
isAuthenticated: true })`. -/
def setTokens (s : AuthState) (t r : String) : AuthState :=
  { s with token := some t, refreshToken := some r, isAuthenticated := true }

/-- Embeds `logout: () => set({ user: null, token: null, refreshToken: null,
isAuthenticated: false })`. -/
def logoutState (_s : AuthState) : AuthState :=
  { user := none, token := none, refreshToken := none, isAuthenticated := false }

/-- A sample user with no organization memberships, used in concrete
witnesses. -/
def sampleUser : User := ⟨"u", "e", none, []⟩

/-- The base-origin development location `http://localhost:3000`. -/
def locBase3000 : Location := ⟨"http:", "localhost", "3000"⟩

/-- The tenant-origin development location `http://acme.localhost:3000`. -/
def locAcme3000 : Location := ⟨"http:", "acme.localhost", "3000"⟩

/-- A sample user whose single membership has subdomain `acme`. -/
def sampleAcmeUser : User := ⟨"u", "e", none, [⟨"o1", "Acme", some "acme", "admin"⟩]⟩

/-- A sample user whose single membership has subdomain `beta`. -/
def sampleBetaUser : User := ⟨"u", "e", none, [⟨"o1", "Beta", some "beta", "admin"⟩]⟩

/-- A sample user whose single membership has no subdomain. -/
def sampleNoSubUser : User := ⟨"u", "e", none, [⟨"o1", "Acme", none, "admin"⟩]⟩

/-- The store's public mutating operations. -/
inductive StoreOp where
  | opSetUser (u : User)
  | opSetTokens (t r : String)
  | opLogout
deriving DecidableEq, Repr

/-- Apply one store operation. -/
def applyOp (s : AuthState) : StoreOp → AuthState
  | .opSetUser u => setUser s u
  | .opSetTokens t r => setTokens s t r
  | .opLogout => logoutState s

/-- Run a sequence of store operations from the initial state. -/
def runOps (ops : List StoreOp) : AuthState :=
  ops.foldl applyOp initState

/-! ## URLs and persisted storage -/

/-- A full-page navigation target (`window.location.href = ...`): protocol,
host (including any subdomain and port), path, and the query string as
key/value pairs in insertion order. -/
structure NavTarget where
  protocol : String
  host : String
  path : String
  query : List (String × String)
deriving DecidableEq, Repr

/-- Embeds `URLSearchParams.get(k)`: the first value bound to `k`, or null. -/
def getParam (q : List (String × String)) (k : String) : Option String :=
  (q.find? (fun p => p.1 == k)).map (fun p => p.2)

/-- True when the key occurs in the query at all. -/
def hasParam (q : List (String × String)) (k : String) : Bool :=
  q.any (fun p => p.1 == k)

/-- The record `redirectToSubdomain` destructures out of the persisted
`auth-storage` value: `const { token, refreshToken, user } =
authData.state || {}`. -/
structure AuthRecord where
  token : Option String
  refreshToken : Option String
  user : Option User
deriving DecidableEq, Repr

/-- What `localStorage.getItem('auth-storage')` followed by `JSON.parse`
yields: the key can be absent, hold an unparseable string (the `catch`
branch), or parse to an object whose `state` field may itself be absent. -/
inductive StorageItem where
  | absent
  | malformed
  | record (st : Option AuthRecord)
deriving DecidableEq, Repr

/-- The Zustand `persist` middleware's `partialize`d write of the store
state into `auth-storage` (the `{token, refreshToken, user}` projection that
`redirectToSubdomain` later reads back). -/
def persistOf (s : AuthState) : StorageItem :=
  .record (some { token := s.token, refreshToken := s.refreshToken, user := s.user })

/-- Modelled from the platform pair
`encodeURIComponent(JSON.stringify(user))`: an opaque serialisation of the
user snapshot.  The code relies only on the result being a non-empty string
(`JSON.stringify` of an object always starts with a brace), which this model
preserves. -/
def encodeUserParam (u : User) : String :=
  "\x7b\"id\":\"" ++ u.id ++ "\"\x7d"

/-! ## Transfer sender: `redirectToSubdomain` (`tenant.ts`) -/

/-- Embeds `redirectToSubdomain(subdomain, path, transferAuth)` from `tenant.ts`,
as a function of the browser location and the persisted `auth-storage`
item, returning the full-page navigation target it assigns to
`window.location.href`.  When `transferAuth` holds and the stored record has
truthy `token` and `refreshToken`, the target is the destination origin's
`/auth/transfer` route carrying `token`, `refresh_token`, `redirect` and
(when a user snapshot is stored) `user` parameters; otherwise it falls back
to the destination path with no query. -/
def redirectToSubdomain (subdomain : Option String) (path : String)
    (transferAuth : Bool) (loc : Location) (stored : StorageItem) : NavTarget :=
  let baseDomain := getBaseDomain loc
  let targetDomain :=
    if jsTruthy subdomain then (subdomain.getD "") ++ "." ++ baseDomain
    else baseDomain
  let fallback : NavTarget :=
    { protocol := loc.protocol, host := targetDomain, path := path, query := [] }
  if transferAuth then
    match stored with
    | .absent => fallback
    | .malformed => fallback
    | .record st =>
      let token := (st.map AuthRecord.token).getD none
      let refreshToken := (st.map AuthRecord.refreshToken).getD none
      let user := (st.map AuthRecord.user).getD none
      if jsTruthy token && jsTruthy refreshToken then
        let userParam := match user with
          | some u => encodeUserParam u
          | none => ""
        let params :=
          [("token", token.getD ""), ("refresh_token", refreshToken.getD ""),
           ("redirect", path)] ++
          (if userParam == "" then [] else [("user", userParam)])
        { protocol := loc.protocol, host := targetDomain,
          path := "/auth/transfer", query := params }
      else fallback
  else fallback

/-! ## Transfer receiver: `AuthTransfer` (`pages/AuthTransfer.tsx`) -/

/-- The in-app navigation the `AuthTransfer` route performs: either
`navigate('/login')` on missing tokens, or `navigate(redirect, { replace:
true })` after storing the session.  React-router navigations are in-app:
they carry only a path on the current origin. -/
inductive TransferNav where
  | toLogin
  | toRedirect (path : String)
deriving DecidableEq, Repr

/-- The `transferAuth` effect of `AuthTransfer.tsx`, as a function of the
received query parameters and the current store state, parameterised by the
platform's user-snapshot decoding `JSON.parse ∘ decodeURIComponent` (with
its `catch` modelled by `Option`).  Missing (null or empty) `token` or
`refresh_token` navigates to login without touching the store; otherwise the
token pair is stored, the snapshot —  when present and parseable — is stored
via `setUser`, and the route navigates to the `redirect` parameter (default
`/home`) with `replace`. -/
def authTransferStep (params : List (String × String))
    (parseUserSnapshot : String → Option User) (st : AuthState) :
    AuthState × TransferNav :=
  let token := getParam params "token"
  let refreshToken := getParam params "refresh_token"
  let userData := getParam params "user"
  let redirect := if jsTruthy (getParam params "redirect") then
      (getParam params "redirect").getD "/home"
    else "/home"
  if !(jsTruthy token) || !(jsTruthy refreshToken) then
    (st, .toLogin)
  else
    let st1 := setTokens st (token.getD "") (refreshToken.getD "")
    let st2 :=
      if jsTruthy userData then
        match parseUserSnapshot (userData.getD "") with
        | some u => setUser st1 u
        | none => st1
      else st1
    (st2, .toRedirect redirect)

/-! ## Login Orchestrator and logout (`hooks/useAuth.ts`) -/

/-- Where a `useAuth` flow sends the browser: an in-app route change
(`navigate(path)`, same origin, no query) or a full-page redirect produced
by `redirectToSubdomain`. -/
inductive LoginNav where
  | route (path : String)
  | hardNav (t : NavTarget)
deriving DecidableEq, Repr

/-- Whether the navigation leaves the current origin as a full-page
redirect. -/
def LoginNav.isHardNav : LoginNav → Bool
  | .route _ => false
  | .hardNav _ => true

/-- Result of the login `onSuccess` handler: the store state it leaves
behind, the navigation it performs, and the value written by
`storeSubdomainContext` (`none` when it is not called). -/
structure LoginResult where
  state : AuthState
  nav : LoginNav
  storedSubdomain : Option String
deriving DecidableEq, Repr

/-- The `loginMutation.onSuccess` handler of `useAuth.ts`: store the token
pair, fetch and store the user, then decide the landing.  With
organizations: on a (truthy) tenant subdomain, stay when some membership's
subdomain strictly equals it, else redirect to the first membership's
subdomain when truthy and otherwise `navigate('/home')`; on the base origin,
a single membership redirects to its subdomain (or `/home` when absent) and
several memberships go to the organization selector.  Without organizations:
`/home`.  The `redirectToSubdomain` calls read back the `auth-storage`
record just persisted by `setTokens`/`setUser`. -/
def loginOnSuccess (st0 : AuthState) (access refresh : String)
    (userData : User) (loc : Location) : LoginResult :=
  let st1 := setTokens st0 access refresh
  let st2 := setUser st1 userData
  let stored := persistOf st2
  let currentSubdomain := getCurrentSubdomain loc.hostname
  if decide (0 < userData.organizations.length) then
    if jsTruthy currentSubdomain then
      let hasAccess := userData.organizations.any
        (fun org => org.subdomain == currentSubdomain)
      if hasAccess then
        { state := st2, nav := .route "/home", storedSubdomain := currentSubdomain }
      else
        match userData.organizations with
        | [] => { state := st2, nav := .route "/home", storedSubdomain := none }
        | firstOrg :: _ =>
          if jsTruthy firstOrg.subdomain then
            { state := st2,
              nav := .hardNav (redirectToSubdomain firstOrg.subdomain "/home" true loc stored),
              storedSubdomain := none }
          else
            { state := st2, nav := .route "/home", storedSubdomain := none }
    else
      if userData.organizations.length == 1 then
        match userData.organizations with
        | [] => { state := st2, nav := .route "/home", storedSubdomain := none }
        | org :: _ =>
          if jsTruthy org.subdomain then
            { state := st2,
              nav := .hardNav (redirectToSubdomain org.subdomain "/home" true loc stored),
              storedSubdomain := none }
          else
            { state := st2, nav := .route "/home", storedSubdomain := none }
      else
        { state := st2, nav := .route "/select-organization", storedSubdomain := none }
  else
    { state := st2, nav := .route "/home", storedSubdomain := none }

/-- Result of the `logout` flow: final store state and navigation (the
subdomain context is always cleared first). -/
structure LogoutResult where
  state : AuthState
  nav : LoginNav
deriving DecidableEq, Repr

/-- The `logout` function of `useAuth.ts` (its `finally` block): clear the
store and the subdomain context; from a (truthy) tenant subdomain call
`redirectToSubdomain(null, '/login', false)` — no auth transfer — and from
the base origin `navigate('/login')`. -/
def logoutFlow (st : AuthState) (loc : Location) (stored : StorageItem) :
    LogoutResult :=
  let st1 := logoutState st
  let currentSubdomain := getCurrentSubdomain loc.hostname
  if jsTruthy currentSubdomain then
    { state := st1, nav := .hardNav (redirectToSubdomain none "/login" false loc stored) }
  else
    { state := st1, nav := .route "/login" }

/-! ## Gateway client response interceptor (`api/client.ts`) -/

/-- Outcome of the refresh endpoint call `POST /api/v1/auth/refresh`. -/
inductive RefreshResult where
  | ok (access refresh : String)
  | fail
deriving DecidableEq, Repr

/-- How the interceptor's promise settles: resolve with a response status,
reject with the original request's error (carrying its status), or reject
with the refresh call's error. -/
inductive Outcome where
  | resolved (status : Nat)
  | rejectedOriginal (status : Nat)
  | rejectedRefresh
deriving DecidableEq, Repr

/-- Observable result of driving one request through the response
interceptor: how it settles, how many refresh calls were made on its
behalf, the store state left behind, and whether
`window.location.href = '/login'` was executed. -/
structure RunResult where
  outcome : Outcome
  refreshCalls : Nat
  state : AuthState
  navLogin : Bool
deriving DecidableEq, Repr

/-- A response with status `< 400` resolves; any other settles the promise
with the request's own error (`Promise.reject(error)`): for a request whose
`_retry` flag is set, a 401 takes this path too, with no refresh. -/
def settleNoRefresh (status : Nat) : Outcome :=
  if status < 400 then .resolved status else .rejectedOriginal status

/-- One request driven through the `apiClient` response interceptor of
`client.ts`.  `resp n` is the status the server answers to the `n`-th send
of this request (any sequence of responses).  On a 401 with the `_retry`
flag clear, the flag is set and, when a refresh token is stored, the refresh
endpoint is called once: success persists the new pair and re-issues the
request (whose own 401 now falls through to rejection); failure logs out,
navigates to `/login` and rejects with the refresh error.  Without a stored
refresh token it logs out, navigates to `/login` and rejects with the
original error.  Every other status, and a 401 with the flag already set,
settles without any refresh call. -/
def runRequest (resp : Nat → Nat) (retryFlag : Bool) (st : AuthState)
    (rr : RefreshResult) : RunResult :=
  let s0 := resp 0
  if s0 < 400 then
    { outcome := .resolved s0, refreshCalls := 0, state := st, navLogin := false }
  else if s0 == 401 && !retryFlag then
    if jsTruthy st.refreshToken then
      match rr with
      | .ok access refresh =>
        let st1 := setTokens st access refresh
        { outcome := settleNoRefresh (resp 1), refreshCalls := 1,
          state := st1, navLogin := false }
      | .fail =>
        { outcome := .rejectedRefresh, refreshCalls := 1,
          state := logoutState st, navLogin := true }
    else
      { outcome := .rejectedOriginal s0, refreshCalls := 0,
        state := logoutState st, navLogin := true }
  else
    { outcome := .rejectedOriginal s0, refreshCalls := 0, state := st,
      navLogin := false }

/-- Does the persisted record lack a usable token pair (absent, unparseable,
no `state` field, or a falsy `token`/`refreshToken`)? -/
def storedLacksTokens : StorageItem → Bool
  | .absent => true
  | .malformed => true
  | .record none => true
  | .record (some rec) => !(jsTruthy rec.token && jsTruthy rec.refreshToken)

/-! ## Helper lemmas -/

theorem jsTruthy_some {s : String} (h : ¬ s = "") : jsTruthy (some s) = true := by
  simp [jsTruthy, h]

theorem encodeUserParam_ne_empty (u : User) : (encodeUserParam u == "") = false := by
  rw [beq_eq_false_iff_ne]
  intro h
  have hlen := congrArg String.length h
  simp [encodeUserParam, String.length_append] at hlen
  exact absurd hlen.1.1 (by decide)

/-- Whatever the persisted storage holds, `redirectToSubdomain` targets the
host made of the (truthy) subdomain label and the base domain. -/
theorem redirect_host_of_truthy (sub : Option String) (path : String)
    (ta : Bool) (loc : Location) (stored : StorageItem)
    (h : jsTruthy sub = true) :
    (redirectToSubdomain sub path ta loc stored).host =
      sub.getD "" ++ "." ++ getBaseDomain loc := by
  unfold redirectToSubdomain
  cases stored <;> cases ta <;> simp only [h] <;> split_ifs <;> rfl

/-! ## Claim theorems -/

/-- C7: the Tenant Resolver satisfies all five test vectors —
`resolveTenant "acme.localhost:3000" = some "acme"`,
`resolveTenant "localhost:3000" = none`, `resolveTenant "127.0.0.1" = none`,
`resolveTenant "www.example.com" = none`, and
`resolveTenant "acme.example.com" = some "acme"` — by splitting on dots,
requiring at least two labels, and rejecting reserved or purely numeric
first labels. -/
theorem tenant_resolver_vectors :
    resolveTenant "acme.localhost:3000" = some "acme" ∧
    resolveTenant "localhost:3000" = none ∧
    resolveTenant "127.0.0.1" = none ∧
    resolveTenant "www.example.com" = none ∧
    resolveTenant "acme.example.com" = some "acme" := by
  decide

/-- C9: in the Session Store, every `setUser` and every `setTokens` call
sets `isAuthenticated` to `true` — `setUser` does so even on a state with no
token, so a state with `isAuthenticated = true` and a null token is
reachable (`runOps [opSetUser u]`) — and among the store's operations only
`logout` (besides the initial state itself) yields `isAuthenticated =
false`. -/
theorem store_isAuthenticated_policy (s : AuthState) (u : User)
    (t r : String) (op : StoreOp)
    (hop : (applyOp s op).isAuthenticated = false) :
    (setUser s u).isAuthenticated = true ∧
    (setTokens s t r).isAuthenticated = true ∧
    op = .opLogout ∧
    initState.isAuthenticated = false ∧
    (runOps [.opSetUser u]).isAuthenticated = true ∧
    (runOps [.opSetUser u]).token = none := by
  refine ⟨rfl, rfl, ?_, rfl, rfl, rfl⟩
  cases op with
  | opSetUser u' => exact absurd hop (by simp [applyOp, setUser])
  | opSetTokens t' r' => exact absurd hop (by simp [applyOp, setTokens])
  | opLogout => rfl

/-- Witness for C9 at a concrete state, user and operation. -/
theorem store_isAuthenticated_policy_witness :
    (setUser initState sampleUser).isAuthenticated = true ∧
    (setTokens initState "A" "R").isAuthenticated = true ∧
    StoreOp.opLogout = StoreOp.opLogout ∧
    initState.isAuthenticated = false ∧
    (runOps [.opSetUser sampleUser]).isAuthenticated = true ∧
    (runOps [.opSetUser sampleUser]).token = none :=
  store_isAuthenticated_policy initState sampleUser "A" "R" .opLogout (by decide)

/-- C1: for every request, at most one token-refresh attempt is ever made
on its behalf: a request whose `_retry` flag is already set that receives
another 401 performs no refresh call and rejects with its own error, for
any sequence of responses `resp`; and for any flag, state, refresh outcome
and response sequence, the number of refresh calls is bounded by one. -/
theorem interceptor_refresh_at_most_once (resp : Nat → Nat) (st : AuthState)
    (rr : RefreshResult) (h401 : resp 0 = 401) :
    runRequest resp true st rr =
      { outcome := .rejectedOriginal 401, refreshCalls := 0,
        state := st, navLogin := false } ∧
    ∀ (resp' : Nat → Nat) (flag : Bool) (st' : AuthState)
      (rr' : RefreshResult),
      (runRequest resp' flag st' rr').refreshCalls ≤ 1 := by
  constructor
  · unfold runRequest
    rw [h401]
    norm_num
  · intro resp' flag st' rr'
    unfold runRequest
    dsimp only
    split
    · exact Nat.zero_le 1
    · split
      · split
        · cases rr' <;> simp
        · simp
      · simp

/-- Witness for C1: a request with the retry flag set that 401s forever
makes no refresh call and rejects. -/
theorem interceptor_refresh_at_most_once_witness :
    runRequest (fun _ => 401) true initState .fail =
      { outcome := .rejectedOriginal 401, refreshCalls := 0,
        state := initState, navLogin := false } ∧
    ∀ (resp' : Nat → Nat) (flag : Bool) (st' : AuthState)
      (rr' : RefreshResult),
      (runRequest resp' flag st' rr').refreshCalls ≤ 1 :=
  interceptor_refresh_at_most_once (fun _ => 401) initState .fail rfl

/-- C2 as stated is false on the code: at this concrete input — a 401 on a
not-yet-retried request, a stored refresh token, and a failing refresh call
— the interceptor logs out and navigates to login, but the promise rejects
with the refresh call's error, not with the original 401 error. -/
theorem interceptor_401_reject_value_cex :
    (runRequest (fun _ => 401) false
      { user := none, token := some "A", refreshToken := some "R",
        isAuthenticated := true } .fail).outcome = Outcome.rejectedRefresh ∧
    ¬ (runRequest (fun _ => 401) false
      { user := none, token := some "A", refreshToken := some "R",
        isAuthenticated := true } .fail).outcome = Outcome.rejectedOriginal 401 ∧
    (runRequest (fun _ => 401) false
      { user := none, token := some "A", refreshToken := some "R",
        isAuthenticated := true } .fail).navLogin = true := by
  decide

/-- C2 (amended): on a 401 for a not-yet-retried request, if no refresh
token is stored the interceptor logs out, navigates to the login entry
point and rejects with the original 401 error; if a refresh token is stored
but the refresh call fails it logs out, navigates to the login entry point
and rejects with the refresh call's error. -/
theorem interceptor_401_terminal (resp : Nat → Nat) (st : AuthState)
    (rr : RefreshResult) (h401 : resp 0 = 401) :
    (jsTruthy st.refreshToken = false →
      runRequest resp false st rr =
        { outcome := .rejectedOriginal 401, refreshCalls := 0,
          state := logoutState st, navLogin := true }) ∧
    (jsTruthy st.refreshToken = true → rr = .fail →
      runRequest resp false st rr =
        { outcome := .rejectedRefresh, refreshCalls := 1,
          state := logoutState st, navLogin := true }) := by
  unfold runRequest
  rw [h401]
  constructor
  · intro h
    norm_num [h]
  · intro h hrr
    subst hrr
    norm_num [h]

/-- Witness for C2 (amended): with no stored refresh token, a first 401
logs out, navigates to login and rejects with the original error. -/
theorem interceptor_401_terminal_witness :
    runRequest (fun _ => 401) false initState .fail =
      { outcome := .rejectedOriginal 401, refreshCalls := 0,
        state := logoutState initState, navLogin := true } :=
  (interceptor_401_terminal (fun _ => 401) initState .fail rfl).1 rfl

/-- C3: whenever the access token or the refresh token parameter of a
transfer is missing (absent or empty), the receiving route redirects to
login and the Session Store of the receiving origin is left exactly as it
was: no token, user, or `isAuthenticated` write occurs. -/
theorem transfer_missing_tokens_no_write (params : List (String × String))
    (pu : String → Option User) (st : AuthState)
    (h : jsTruthy (getParam params "token") = false ∨
         jsTruthy (getParam params "refresh_token") = false) :
    authTransferStep params pu st = (st, .toLogin) := by
  unfold authTransferStep
  rcases h with h | h <;> simp [h]

/-- Witness for C3: a transfer URL with the `token` parameter missing
writes nothing and redirects to login. -/
theorem transfer_missing_tokens_no_write_witness :
    authTransferStep [("refresh_token", "R"), ("redirect", "/dash")]
      (fun _ => none) initState = (initState, .toLogin) :=
  transfer_missing_tokens_no_write [("refresh_token", "R"), ("redirect", "/dash")]
    (fun _ => none) initState (Or.inl (by decide))

/-- C4: for every session with non-empty access and refresh tokens, the
transfer URL encoded by `redirectToSubdomain` with redirect path `/dash`
decodes on the receiving origin to a Session Store holding exactly the
sender's token pair with `isAuthenticated = true`, and the route then
navigates (with `replace`) to the bare path `/dash`, which carries none of
the token query parameters. -/
theorem transfer_round_trip (a r : String) (uStored : Option User)
    (sub : Option String) (loc : Location) (pu : String → Option User)
    (stRecv : AuthState) (sent : NavTarget)
    (ha : ¬ a = "") (hr : ¬ r = "")
    (hsent : sent = redirectToSubdomain sub "/dash" true loc
      (.record (some { token := some a, refreshToken := some r, user := uStored }))) :
    sent.path = "/auth/transfer" ∧
    (authTransferStep sent.query pu stRecv).1.token = some a ∧
    (authTransferStep sent.query pu stRecv).1.refreshToken = some r ∧
    (authTransferStep sent.query pu stRecv).1.isAuthenticated = true ∧
    (authTransferStep sent.query pu stRecv).2 = TransferNav.toRedirect "/dash" := by
  have ha' : (a == "") = false := beq_eq_false_iff_ne.mpr ha
  have hr' : (r == "") = false := beq_eq_false_iff_ne.mpr hr
  subst hsent
  unfold redirectToSubdomain
  dsimp only [Option.map, Option.getD]
  rw [show (jsTruthy (some a) && jsTruthy (some r)) = true by
    simp [jsTruthy, ha', hr']]
  cases uStored with
  | none =>
    refine ⟨rfl, ?_⟩
    unfold authTransferStep
    simp [getParam, List.find?, jsTruthy, ha', hr', setTokens]
  | some u =>
    have henc := encodeUserParam_ne_empty u
    refine ⟨by simp, ?_⟩
    unfold authTransferStep
    cases hpu : pu (encodeUserParam u) with
    | none => simp [getParam, List.find?, jsTruthy, ha', hr', henc, hpu, setTokens]
    | some u' => simp [getParam, List.find?, jsTruthy, ha', hr', henc, hpu,
        setTokens, setUser]

/-- Witness for C4 at a concrete session and base-origin location. -/
theorem transfer_round_trip_witness :
    (redirectToSubdomain (some "acme") "/dash" true
      { protocol := "http:", hostname := "localhost", port := "3000" }
      (.record (some { token := some "A", refreshToken := some "R", user := none }))).path
      = "/auth/transfer" ∧
    (authTransferStep (redirectToSubdomain (some "acme") "/dash" true
      { protocol := "http:", hostname := "localhost", port := "3000" }
      (.record (some { token := some "A", refreshToken := some "R", user := none }))).query
      (fun _ => none) initState).1.token = some "A" ∧
    (authTransferStep (redirectToSubdomain (some "acme") "/dash" true
      { protocol := "http:", hostname := "localhost", port := "3000" }
      (.record (some { token := some "A", refreshToken := some "R", user := none }))).query
      (fun _ => none) initState).1.refreshToken = some "R" ∧
    (authTransferStep (redirectToSubdomain (some "acme") "/dash" true
      { protocol := "http:", hostname := "localhost", port := "3000" }
      (.record (some { token := some "A", refreshToken := some "R", user := none }))).query
      (fun _ => none) initState).1.isAuthenticated = true ∧
    (authTransferStep (redirectToSubdomain (some "acme") "/dash" true
      { protocol := "http:", hostname := "localhost", port := "3000" }
      (.record (some { token := some "A", refreshToken := some "R", user := none }))).query
      (fun _ => none) initState).2 = TransferNav.toRedirect "/dash" :=
  transfer_round_trip "A" "R" none (some "acme")
    { protocol := "http:", hostname := "localhost", port := "3000" }
    (fun _ => none) initState _ (by decide) (by decide) rfl

/-- C8: a logout initiated on a tenant origin, in every store state and
whatever the persisted storage holds, clears the store and navigates to the
base origin's login page with an empty query: no token, refresh-token or
user parameter is attached. -/
theorem logout_no_transfer (st : AuthState) (loc : Location)
    (stored : StorageItem) (x : String)
    (hx : getCurrentSubdomain loc.hostname = some x) (hxne : ¬ x = "") :
    logoutFlow st loc stored =
      { state := logoutState st,
        nav := .hardNav { protocol := loc.protocol, host := getBaseDomain loc,
                          path := "/login", query := [] } } := by
  have hx' : (x == "") = false := beq_eq_false_iff_ne.mpr hxne
  unfold logoutFlow redirectToSubdomain
  simp [hx, jsTruthy, hx']

/-- Witness for C8 on the `acme.localhost:3000` origin. -/
theorem logout_no_transfer_witness :
    logoutFlow initState locAcme3000 .absent =
      { state := logoutState initState,
        nav := .hardNav { protocol := "http:", host := getBaseDomain locAcme3000,
                          path := "/login", query := [] } } :=
  logout_no_transfer initState locAcme3000 .absent "acme" (by decide) (by decide)

/-- C10: when a cross-tenant redirect requests auth transfer but the
persisted auth record is missing, unparseable, lacks its `state` field, or
lacks a (truthy) access or refresh token, `redirectToSubdomain` falls back
to navigating directly to the destination path: the produced URL keeps the
caller's path (no transfer route) and carries an empty query, and the
function is total — no error reaches the caller. -/
theorem redirect_fallback_silent (sub : Option String) (path : String)
    (loc : Location) (stored : StorageItem)
    (h : storedLacksTokens stored = true) :
    redirectToSubdomain sub path true loc stored =
      { protocol := loc.protocol,
        host := if jsTruthy sub then sub.getD "" ++ "." ++ getBaseDomain loc
                else getBaseDomain loc,
        path := path, query := [] } := by
  cases stored with
  | absent => rfl
  | malformed => rfl
  | record st =>
    cases st with
    | none => rfl
    | some rec =>
      have hc : (jsTruthy rec.token && jsTruthy rec.refreshToken) = false := by
        by_contra hne
        have htrue : (jsTruthy rec.token && jsTruthy rec.refreshToken) = true := by
          revert hne
          cases (jsTruthy rec.token && jsTruthy rec.refreshToken) <;> simp
        simp [storedLacksTokens, htrue] at h
      unfold redirectToSubdomain
      dsimp only [Option.map, Option.getD]
      rw [hc]
      simp

/-- Witness for C10: a transfer-enabled redirect with no persisted record
falls back to the plain destination URL. -/
theorem redirect_fallback_silent_witness :
    redirectToSubdomain (some "acme") "/home" true
      { protocol := "http:", hostname := "localhost", port := "3000" } .absent =
      { protocol := "http:",
        host := if jsTruthy (some "acme") then
            (some "acme").getD "" ++ "." ++ getBaseDomain
              { protocol := "http:", hostname := "localhost", port := "3000" }
          else getBaseDomain
              { protocol := "http:", hostname := "localhost", port := "3000" },
        path := "/home", query := [] } :=
  redirect_fallback_silent (some "acme") "/home"
    { protocol := "http:", hostname := "localhost", port := "3000" }
    .absent (by decide)

/-- C5 as stated is false on the code: at this concrete input — login on
tenant origin `acme.localhost:3000` by a user whose only membership has no
subdomain (so no membership matches `acme`) — the Login Orchestrator
performs an in-app `navigate('/home')`, remaining on the current tenant
origin; it does not redirect to the base origin (it performs no full-page
navigation at all). -/
theorem login_foreign_tenant_cex :
    (loginOnSuccess initState "A" "R" sampleNoSubUser locAcme3000).nav =
      LoginNav.route "/home" ∧
    LoginNav.isHardNav
      (loginOnSuccess initState "A" "R" sampleNoSubUser locAcme3000).nav = false := by
  decide

/-- C5 (amended): for every successful login on a tenant origin `x` by a
user with at least one membership but none whose subdomain equals `x`, the
orchestrator redirects to the first membership's tenant origin when that
membership has a subdomain; when it has none, it performs an in-app
navigation to `/home` and stays on the current tenant origin (it does not
navigate to the base origin). -/
theorem login_foreign_tenant_redirect (st0 : AuthState)
    (access refresh : String) (u : User) (loc : Location) (x : String)
    (firstOrg : OrgMembership) (rest : List OrgMembership)
    (horgs : u.organizations = firstOrg :: rest)
    (hx : getCurrentSubdomain loc.hostname = some x)
    (hxne : ¬ x = "")
    (hnomem : ∀ org ∈ u.organizations, ¬ org.subdomain = some x) :
    (∀ s, firstOrg.subdomain = some s → ¬ s = "" →
      (loginOnSuccess st0 access refresh u loc).nav =
        .hardNav (redirectToSubdomain (some s) "/home" true loc
          (persistOf (setUser (setTokens st0 access refresh) u))) ∧
      (redirectToSubdomain (some s) "/home" true loc
        (persistOf (setUser (setTokens st0 access refresh) u))).host =
        s ++ "." ++ getBaseDomain loc) ∧
    (firstOrg.subdomain = none →
      (loginOnSuccess st0 access refresh u loc).nav = LoginNav.route "/home") := by
  have hx' : (x == "") = false := beq_eq_false_iff_ne.mpr hxne
  have hany : (firstOrg :: rest).any (fun org => org.subdomain == some x) = false := by
    rw [Bool.eq_false_iff]
    intro hcontra
    rw [List.any_eq_true] at hcontra
    obtain ⟨org, hmem, heq⟩ := hcontra
    exact hnomem org (horgs ▸ hmem) (by simpa using heq)
  have hres : loginOnSuccess st0 access refresh u loc =
      (if jsTruthy firstOrg.subdomain then
        { state := setUser (setTokens st0 access refresh) u,
          nav := .hardNav (redirectToSubdomain firstOrg.subdomain "/home" true loc
            (persistOf (setUser (setTokens st0 access refresh) u))),
          storedSubdomain := none }
      else
        { state := setUser (setTokens st0 access refresh) u,
          nav := .route "/home", storedSubdomain := none }) := by
    unfold loginOnSuccess
    rw [horgs]
    simp [hx, jsTruthy, hx', hany]
  constructor
  · intro s hs hsne
    have hs' : (s == "") = false := beq_eq_false_iff_ne.mpr hsne
    constructor
    · rw [hres, hs]
      simp [jsTruthy, hs']
    · simpa using redirect_host_of_truthy (some s) "/home" true loc
        (persistOf (setUser (setTokens st0 access refresh) u))
        (by simp [jsTruthy, hs'])
  · intro hnone
    rw [hres, hnone]
    simp [jsTruthy]

/-- Witness for C5 (amended): login on `acme.localhost:3000` by a user
whose only membership is for subdomain `beta` redirects to the `beta`
tenant origin. -/
theorem login_foreign_tenant_redirect_witness :
    (loginOnSuccess initState "A" "R" sampleBetaUser locAcme3000).nav =
      .hardNav (redirectToSubdomain (some "beta") "/home" true locAcme3000
        (persistOf (setUser (setTokens initState "A" "R") sampleBetaUser))) ∧
    (redirectToSubdomain (some "beta") "/home" true locAcme3000
      (persistOf (setUser (setTokens initState "A" "R") sampleBetaUser))).host =
      "beta" ++ "." ++ getBaseDomain locAcme3000 :=
  (login_foreign_tenant_redirect initState "A" "R" sampleBetaUser locAcme3000
    "acme" ⟨"o1", "Beta", some "beta", "admin"⟩ [] rfl (by decide) (by decide)
    (by decide)).1 "beta" rfl (by decide)

/-- C6: for every successful login (non-empty token pair) from the base
origin by a user with exactly one membership: when the membership has a
subdomain `s`, the orchestrator performs a full-page Transfer Handoff to
that subdomain's transfer URL, carrying the token pair, the redirect path
`/home` and the user snapshot; when it has none, it stays on the base
origin with an in-app navigation to `/home`; and in no case does it
navigate to the Organization Selector. -/
theorem login_single_org_transfer (st0 : AuthState)
    (access refresh : String) (u : User) (loc : Location) (m : OrgMembership)
    (hbase : jsTruthy (getCurrentSubdomain loc.hostname) = false)
    (horgs : u.organizations = [m])
    (ha : ¬ access = "") (hr : ¬ refresh = "") :
    (∀ s, m.subdomain = some s → ¬ s = "" →
      (loginOnSuccess st0 access refresh u loc).nav =
        .hardNav { protocol := loc.protocol,
                   host := s ++ "." ++ getBaseDomain loc,
                   path := "/auth/transfer",
                   query := [("token", access), ("refresh_token", refresh),
                             ("redirect", "/home"), ("user", encodeUserParam u)] }) ∧
    (m.subdomain = none →
      (loginOnSuccess st0 access refresh u loc).nav = LoginNav.route "/home") ∧
    ¬ (loginOnSuccess st0 access refresh u loc).nav =
        LoginNav.route "/select-organization" := by
  have ha' : (access == "") = false := beq_eq_false_iff_ne.mpr ha
  have hr' : (refresh == "") = false := beq_eq_false_iff_ne.mpr hr
  have hres : loginOnSuccess st0 access refresh u loc =
      (if jsTruthy m.subdomain then
        { state := setUser (setTokens st0 access refresh) u,
          nav := .hardNav (redirectToSubdomain m.subdomain "/home" true loc
            (persistOf (setUser (setTokens st0 access refresh) u))),
          storedSubdomain := none }
      else
        { state := setUser (setTokens st0 access refresh) u,
          nav := .route "/home", storedSubdomain := none }) := by
    unfold loginOnSuccess
    rw [horgs]
    simp [hbase]
  refine ⟨?_, ?_, ?_⟩
  · intro s hs hsne
    have hs' : (s == "") = false := beq_eq_false_iff_ne.mpr hsne
    rw [hres, hs]
    have hred : redirectToSubdomain (some s) "/home" true loc
        (persistOf (setUser (setTokens st0 access refresh) u)) =
        { protocol := loc.protocol,
          host := s ++ "." ++ getBaseDomain loc,
          path := "/auth/transfer",
          query := [("token", access), ("refresh_token", refresh),
                    ("redirect", "/home"), ("user", encodeUserParam u)] } := by
      unfold redirectToSubdomain persistOf setUser setTokens
      dsimp only [Option.map, Option.getD]
      simp [jsTruthy, ha', hr', hs', encodeUserParam_ne_empty u]
    rw [hred]
    simp [jsTruthy, hs']
  · intro hnone
    rw [hres, hnone]
    simp [jsTruthy]
  · rw [hres]
    split <;> simp

/-- Witness for C6: login from `localhost:3000` by a user whose single
membership has subdomain `acme` hands off to the `acme` transfer URL. -/
theorem login_single_org_transfer_witness :
    (loginOnSuccess initState "A" "R" sampleAcmeUser locBase3000).nav =
      .hardNav { protocol := "http:",
                 host := "acme" ++ "." ++ getBaseDomain locBase3000,
                 path := "/auth/transfer",
                 query := [("token", "A"), ("refresh_token", "R"),
                           ("redirect", "/home"),
                           ("user", encodeUserParam sampleAcmeUser)] } :=
  (login_single_org_transfer initState "A" "R" sampleAcmeUser locBase3000
    ⟨"o1", "Acme", some "acme", "admin"⟩ (by decide) rfl (by decide)
    (by decide)).1 "acme" rfl (by decide)

end BIwithAI
